import Mathlib

/-!
Verification of the XRechnung viewer orchestration layer
(xrechnung_viewer.py): document-type classification, the two-stage XSLT
pipelines, the PDF render adapter, and the HTTP route handlers, shallowly
embedded as Lean functions over explicit environments that stand for the
external collaborators (XML parser, XSLT engine, filesystem, subprocess).
-/

/-- The three recognized document types, the keys of the NAMESPACES table;
the code represents the unrecognized case as Python None, here
as the surrounding Option being none. -/
inductive DocType
  | ubl_invoice
  | ubl_creditnote
  | cii
deriving DecidableEq

/-- NAMESPACES["ubl_invoice"]. -/
def NS_ubl_invoice : List Char :=
  "urn:oasis:names:specification:ubl:schema:xsd:Invoice-2".toList

/-- NAMESPACES["ubl_creditnote"]. -/
def NS_ubl_creditnote : List Char :=
  "urn:oasis:names:specification:ubl:schema:xsd:CreditNote-2".toList

/-- NAMESPACES["cii"]. -/
def NS_cii : List Char :=
  "urn:un:unece:uncefact:data:standard:CrossIndustryInvoice:100".toList

/-- Python root.tag.split("\x7d")[0].strip("\x7b"): the text before the
first closing brace, with leading and trailing opening braces removed. -/
def stripNs (tag : List Char) : List Char :=
  (((tag.takeWhile (fun c => c != '}')).dropWhile
      (fun c => c == '{')).reverse.dropWhile (fun c => c == '{')).reverse

/-- The namespace extraction inside detect_document_type:
ns is the split-and-strip of root.tag when the tag contains a closing
brace, and the empty string otherwise. -/
def extract_ns (tag : List Char) : List Char :=
  if '}' ∈ tag then stripNs tag else []

/-- detect_document_type: the argument is the outcome of
etree.fromstring on the uploaded bytes, none standing for the
parse-failure branch (the except handler returns None); a parsed
document is represented by its root tag in Clark form. -/
def detect_document_type : Option (List Char) → Option DocType
  | none => none
  | some tag =>
    if extract_ns tag = NS_ubl_invoice then some .ubl_invoice
    else if extract_ns tag = NS_ubl_creditnote then some .ubl_creditnote
    else if extract_ns tag = NS_cii then some .cii
    else none

/-- An lxml root tag: for a namespaced root the Clark form
brace, namespace URI, brace, local name; for an unqualified root the
bare local name. -/
def clarkTag : Option (List Char) → List Char → List Char
  | some ns, localName => '{' :: (ns ++ '}' :: localName)
  | none, localName => localName

/-- Spec reading of the classifier: exact-match lookup of the root
namespace URI against the three fixed URIs, first match wins,
unrecognized otherwise (the unqualified root carries the empty
namespace). -/
def spec_classify (ns : List Char) : Option DocType :=
  if ns = NS_ubl_invoice then some .ubl_invoice
  else if ns = NS_ubl_creditnote then some .ubl_creditnote
  else if ns = NS_cii then some .cii
  else none

lemma takeWhile_until_sep (ns localName : List Char) (h : '}' ∉ ns) :
    (ns ++ '}' :: localName).takeWhile (fun c => c != '}') = ns := by
  induction ns with
  | nil => simp [List.takeWhile_cons]
  | cons a t ih =>
    simp only [List.mem_cons, not_or] at h
    simp [List.takeWhile_cons, Ne.symm h.1, ih h.2]

lemma dropWhile_no_brace (s : List Char) (h : '{' ∉ s) :
    s.dropWhile (fun c => c == '{') = s := by
  cases s with
  | nil => rfl
  | cons a t =>
    simp only [List.mem_cons, not_or] at h
    simp [List.dropWhile_cons, Ne.symm h.1]

lemma stripNs_clark (ns localName : List Char) (hl : '{' ∉ ns) (hr : '}' ∉ ns) :
    stripNs ('{' :: (ns ++ '}' :: localName)) = ns := by
  have h1 : ('{' :: (ns ++ '}' :: localName)).takeWhile (fun c => c != '}')
      = '{' :: ns := by
    rw [List.takeWhile_cons]
    simp [takeWhile_until_sep ns localName hr]
  have h2 : ('{' :: ns).dropWhile (fun c => c == '{') = ns := by
    rw [List.dropWhile_cons]
    simp [dropWhile_no_brace ns hl]
  have h3 : ns.reverse.dropWhile (fun c => c == '{') = ns.reverse :=
    dropWhile_no_brace ns.reverse (by simpa using hl)
  unfold stripNs
  rw [h1, h2, h3, List.reverse_reverse]

/-- C1: the classifier returns exactly the document type whose fixed
namespace URI equals the root element's namespace (the empty string for
an unqualified root), none for every other namespace, and none on
parse failure, agreeing with the spec-side exact-match lookup. -/
theorem classifier_matches_spec (localName : List Char) (hloc : '}' ∉ localName) :
    (∀ ns : List Char, '{' ∉ ns → '}' ∉ ns →
        detect_document_type (some (clarkTag (some ns) localName)) = spec_classify ns)
    ∧ detect_document_type (some (clarkTag none localName)) = spec_classify []
    ∧ detect_document_type none = none := by
  refine ⟨?_, ?_, rfl⟩
  · intro ns hl hr
    have hmem : '}' ∈ clarkTag (some ns) localName := by
      simp [clarkTag]
    have hext : extract_ns (clarkTag (some ns) localName) = ns := by
      simp only [extract_ns, if_pos hmem]
      exact stripNs_clark ns localName hl hr
    simp only [detect_document_type, hext, spec_classify]
  · have hext : extract_ns (clarkTag none localName) = [] := by
      simp [extract_ns, clarkTag, hloc]
    simp only [detect_document_type, hext]
    decide

/-- Witness for C1 at the UBL Invoice namespace with root local name
Invoice. -/
theorem classifier_matches_spec_witness :
    detect_document_type (some (clarkTag (some NS_ubl_invoice) "Invoice".toList))
      = spec_classify NS_ubl_invoice :=
  (classifier_matches_spec "Invoice".toList (by decide)).1 NS_ubl_invoice
    (by decide) (by decide)

/-- The literal pattern of filename.replace, the four characters of
".xml". -/
def XML_PAT : List Char := ['.', 'x', 'm', 'l']

/-- The literal replacement, the four characters of ".pdf". -/
def PDF_REP : List Char := ['.', 'p', 'd', 'f']

/-- Python str.replace with pattern ".xml" and replacement ".pdf": scan
left to right, replacing every non-overlapping occurrence of the
pattern. -/
def replaceXml : List Char → List Char
  | c1 :: c2 :: c3 :: c4 :: rest =>
    if c1 = '.' ∧ c2 = 'x' ∧ c3 = 'm' ∧ c4 = 'l' then PDF_REP ++ replaceXml rest
    else c1 :: replaceXml (c2 :: c3 :: c4 :: rest)
  | c1 :: rest => c1 :: replaceXml rest
  | [] => []

/-- The download filename of export_pdf:
file.filename.replace(".xml", ".pdf") when the filename is truthy,
the fixed fallback "xrechnung.pdf" otherwise. -/
def export_filename (name : List Char) : List Char :=
  if name = [] then "xrechnung.pdf".toList else replaceXml name

lemma replaceXml_of_not_infix (s : List Char) (h : ¬ XML_PAT <:+: s) :
    replaceXml s = s := by
  induction s with
  | nil => rfl
  | cons c1 t ih =>
    have ht : ¬ XML_PAT <:+: t := fun hcon => h (List.infix_cons hcon)
    rcases t with _ | ⟨a, _ | ⟨b, _ | ⟨d, u⟩⟩⟩
    · rfl
    · rfl
    · rfl
    · by_cases hc : c1 = '.' ∧ a = 'x' ∧ b = 'm' ∧ d = 'l'
      · exfalso
        apply h
        obtain ⟨h1, h2, h3, h4⟩ := hc
        subst h1; subst h2; subst h3; subst h4
        exact ⟨[], u, rfl⟩
      · simp only [replaceXml, if_neg hc]
        rw [ih ht]

lemma replaceXml_append_pat (stem : List Char) (h : ¬ XML_PAT <:+: stem) :
    replaceXml (stem ++ XML_PAT) = stem ++ PDF_REP := by
  induction stem with
  | nil => rfl
  | cons c1 t ih =>
    have ht : ¬ XML_PAT <:+: t := fun hcon => h (List.infix_cons hcon)
    rcases t with _ | ⟨a, _ | ⟨b, _ | ⟨d, u⟩⟩⟩
    · simp [XML_PAT, PDF_REP, replaceXml]
    · simp [XML_PAT, PDF_REP, replaceXml]
    · simp [XML_PAT, PDF_REP, replaceXml]
    · by_cases hc : c1 = '.' ∧ a = 'x' ∧ b = 'm' ∧ d = 'l'
      · exfalso
        apply h
        obtain ⟨h1, h2, h3, h4⟩ := hc
        subst h1; subst h2; subst h3; subst h4
        exact ⟨[], u, rfl⟩
      · have harg : (c1 :: a :: b :: d :: u) ++ XML_PAT
            = c1 :: a :: b :: d :: (u ++ XML_PAT) := rfl
        rw [harg]
        simp only [replaceXml, if_neg hc]
        have harg2 : a :: b :: d :: (u ++ XML_PAT)
            = (a :: b :: d :: u) ++ XML_PAT := rfl
        rw [harg2, ih ht]
        rfl

/-- C8 counterexample: for the upload name "invoice.txt" the handler
keeps the name unchanged instead of producing "invoice.pdf", refuting
the replace-the-extension reading of the filename rule. -/
theorem export_filename_cex :
    export_filename "invoice.txt".toList = "invoice.txt".toList
    ∧ export_filename "invoice.txt".toList ≠ "invoice.pdf".toList := by
  exact ⟨rfl, by decide⟩

/-- C8 amended: the download filename is the uploaded name with every
occurrence of the substring ".xml" replaced by ".pdf" - so a name whose
only ".xml" occurrence is its final extension becomes the same name
ending in ".pdf", a name without any ".xml" occurrence is returned
unchanged, and an empty name falls back to "xrechnung.pdf". -/
theorem export_filename_replaces_xml (name stem : List Char)
    (h1 : name ≠ []) (h2 : ¬ XML_PAT <:+: name) (h3 : ¬ XML_PAT <:+: stem) :
    export_filename name = name
    ∧ export_filename (stem ++ XML_PAT) = stem ++ PDF_REP
    ∧ export_filename [] = "xrechnung.pdf".toList := by
  refine ⟨?_, ?_, rfl⟩
  · rw [export_filename, if_neg h1]
    exact replaceXml_of_not_infix name h2
  · rw [export_filename, if_neg (by simp [XML_PAT])]
    exact replaceXml_append_pat stem h3

/-- Witness for C8 at the names "a.txt" and "invoice.xml". -/
theorem export_filename_replaces_xml_witness :
    export_filename "a.txt".toList = "a.txt".toList
    ∧ export_filename ("invoice".toList ++ XML_PAT) = "invoice".toList ++ PDF_REP
    ∧ export_filename [] = "xrechnung.pdf".toList :=
  export_filename_replaces_xml "a.txt".toList "invoice".toList
    (by decide) (by decide) (by decide)

/-- Python exception classes raised or caught by the handlers; the
payload is str(e). -/
inductive PyErr
  | valueError (m : String)
  | fileNotFound (m : String)
  | runtimeError (m : String)
  | saxonError (m : String)
  | osError (m : String)
deriving DecidableEq

/-- Python str(e) of an exception. -/
def PyErr.msg : PyErr → String
  | .valueError m => m
  | .fileNotFound m => m
  | .runtimeError m => m
  | .saxonError m => m
  | .osError m => m

/-- Python falsiness of an XSLT engine result: None or the empty
string. -/
def pyFalsy : Option String → Bool
  | none => true
  | some s => s == ""

/-- The xsl_mapping table: first-stage stylesheet filename per document
type. -/
def xsl_mapping : DocType → String
  | .ubl_invoice => "ubl-invoice-xr.xsl"
  | .ubl_creditnote => "ubl-creditnote-xr.xsl"
  | .cii => "cii-xr.xsl"

deriving instance DecidableEq for Except

/-- Oracle for the external XSLT engine and the stylesheet filesystem:
whether the two stylesheet files exist, and what each compile and
transform call of the engine does (error meaning the engine raises with
that message, ok carrying the returned value). -/
structure XsltEnv where
  firstExists : Bool
  secondExists : Bool
  compile1 : Except String Unit
  run1 : Except String (Option String)
  compile2 : Except String Unit
  run2 : Except String (Option String)
deriving DecidableEq

/-- Which engine steps of a pipeline were reached. -/
structure XsltTrace where
  compile1 : Bool
  run1 : Bool
  compile2 : Bool
  run2 : Bool
deriving DecidableEq

/-- Trace before any engine step ran. -/
def noSteps : XsltTrace := ⟨false, false, false, false⟩

/-- transform_xml, the view pipeline: detect the type, check that both
stylesheet files exist, then stage one (compile and transform) and
stage two, with the code's stage-specific failure messages; any
engine-raised error propagates. -/
def transform_xml (rootTag : Option (List Char)) (env : XsltEnv) :
    Except PyErr String × XsltTrace :=
  match detect_document_type rootTag with
  | none =>
      (.error (.valueError
        "Unknown XML format. Supported: UBL Invoice, UBL CreditNote, CII/UNCEFACT"),
       noSteps)
  | some t =>
      if env.firstExists = false then
        (.error (.fileNotFound ("XSLT not found: " ++ xsl_mapping t)), noSteps)
      else if env.secondExists = false then
        (.error (.fileNotFound "XSLT not found: xrechnung-html.xsl"), noSteps)
      else
        match env.compile1 with
        | .error m => (.error (.saxonError m), ⟨true, false, false, false⟩)
        | .ok _ =>
          match env.run1 with
          | .error m => (.error (.saxonError m), ⟨true, true, false, false⟩)
          | .ok r1 =>
            if pyFalsy r1 then
              (.error (.runtimeError "First XSLT transformation failed"),
               ⟨true, true, false, false⟩)
            else
              match env.compile2 with
              | .error m => (.error (.saxonError m), ⟨true, true, true, false⟩)
              | .ok _ =>
                match env.run2 with
                | .error m => (.error (.saxonError m), ⟨true, true, true, true⟩)
                | .ok r2 =>
                  if pyFalsy r2 then
                    (.error (.runtimeError "Second XSLT transformation failed"),
                     ⟨true, true, true, true⟩)
                  else (.ok (r2.getD ""), ⟨true, true, true, true⟩)

/-- The transformation phase of export_pdf: the same two stages but
with no stylesheet existence checks, the shorter unknown-format
message, and the FO-specific second-stage failure message. -/
def export_xslt (rootTag : Option (List Char)) (env : XsltEnv) :
    Except PyErr String × XsltTrace :=
  match detect_document_type rootTag with
  | none => (.error (.valueError "Unknown XML format"), noSteps)
  | some _ =>
      match env.compile1 with
      | .error m => (.error (.saxonError m), ⟨true, false, false, false⟩)
      | .ok _ =>
        match env.run1 with
        | .error m => (.error (.saxonError m), ⟨true, true, false, false⟩)
        | .ok r1 =>
          if pyFalsy r1 then
            (.error (.runtimeError "First XSLT transformation failed"),
             ⟨true, true, false, false⟩)
          else
            match env.compile2 with
            | .error m => (.error (.saxonError m), ⟨true, true, true, false⟩)
            | .ok _ =>
              match env.run2 with
              | .error m => (.error (.saxonError m), ⟨true, true, true, true⟩)
              | .ok r2 =>
                if pyFalsy r2 then
                  (.error (.runtimeError "XSL-FO transformation failed"),
                   ⟨true, true, true, true⟩)
                else (.ok (r2.getD ""), ⟨true, true, true, true⟩)

/-- Which of the three scoped temporary files of export_pdf currently
exist on disk. -/
structure TempState where
  fo : Bool
  pdf : Bool
  xconf : Bool
deriving DecidableEq

/-- No temporary file present. -/
def noTemps : TempState := ⟨false, false, false⟩

/-- Oracle for the render-step externals: whether each temp-file
creation succeeds, whether subprocess.run itself raises, the subprocess
outcome (exit code and captured streams), and the observed state and
content of the output file after the run. -/
structure FopEnv where
  createFo : Bool
  createPdf : Bool
  createXconf : Bool
  runRaises : Option String
  exitCode : Int
  stderrTxt : String
  stdoutTxt : String
  pdfExists : Bool
  pdfSize : Nat
  pdfBytes : String
deriving DecidableEq

/-- result.stderr or result.stdout or "FOP execution failed". -/
def fopErrorDetail (env : FopEnv) : String :=
  if env.stderrTxt ≠ "" then env.stderrTxt
  else if env.stdoutTxt ≠ "" then env.stdoutTxt
  else "FOP execution failed"

/-- Spec reading of the failure detail: the combined standard-error and
standard-output text of the subprocess. -/
def spec_combined_output (env : FopEnv) : String :=
  env.stderrTxt ++ env.stdoutTxt

/-- The render phase of export_pdf, from the creation of the .fo temp
file through the finally block: the handler outcome, the set of
temporary files left on disk, and whether the subprocess was invoked.
The try/finally that deletes the three files encloses only the code
after all three creations, so a failing later creation leaves the
earlier files behind. -/
def renderPhase (env : FopEnv) : Except PyErr String × TempState × Bool :=
  if env.createFo = false then
    (.error (.osError "could not create temporary file"), ⟨false, false, false⟩, false)
  else if env.createPdf = false then
    (.error (.osError "could not create temporary file"), ⟨true, false, false⟩, false)
  else if env.createXconf = false then
    (.error (.osError "could not create temporary file"), ⟨true, true, false⟩, false)
  else
    match env.runRaises with
    | some m => (.error (.osError m), ⟨false, false, false⟩, true)
    | none =>
      if env.pdfExists = true ∧ 0 < env.pdfSize then
        (.ok env.pdfBytes, ⟨false, false, false⟩, true)
      else
        (.error (.runtimeError ("FOP error: " ++ fopErrorDetail env)),
         ⟨false, false, false⟩, true)

/-- An upload request as the handlers see it: presence of the file
field, the filename, and the parse outcome of the uploaded bytes (the
root tag, or none for malformed XML). -/
structure HttpReq where
  hasFileField : Bool
  filename : List Char
  rootTag : Option (List Char)
deriving DecidableEq

/-- Response of the transform route. -/
inductive TransformResp
  | err (status : Nat) (m : String)
  | ok (html : String) (filename : List Char)
deriving DecidableEq

/-- HTTP status of a transform-route response. -/
def TransformResp.status : TransformResp → Nat
  | .err s _ => s
  | .ok _ _ => 200

/-- The transform route handler: field and filename guards return 400,
the pipeline runs inside a try whose except turns any exception into a
500 response carrying str(e). -/
def transform_route (rq : HttpReq) (env : XsltEnv) : TransformResp :=
  if rq.hasFileField = false then .err 400 "No file uploaded"
  else if rq.filename = [] then .err 400 "No file selected"
  else
    match (transform_xml rq.rootTag env).1 with
    | .error e => .err 500 e.msg
    | .ok html => .ok html rq.filename

/-- Response of the export-pdf route: a JSON error or a PDF
attachment. -/
inductive ExportResp
  | json (status : Nat) (m : String)
  | pdfAttachment (content : String) (filename : List Char)
deriving DecidableEq

/-- HTTP status of an export-pdf response. -/
def ExportResp.status : ExportResp → Nat
  | .json s _ => s
  | .pdfAttachment _ _ => 200

/-- Full outcome of the export-pdf handler: its response, the temp
files left behind, and whether the renderer subprocess was invoked. -/
structure ExportResult where
  resp : ExportResp
  temp : TempState
  subprocInvoked : Bool
deriving DecidableEq

/-- The export-pdf route handler: the HAS_FOP guard, the field and
filename guards, the transformation phase, then the render phase; the
except turns any exception into a 500 response carrying str(e). -/
def export_pdf_route (hasFop : Bool) (rq : HttpReq) (xenv : XsltEnv)
    (fenv : FopEnv) : ExportResult :=
  if hasFop = false then ⟨.json 500 "Apache FOP not installed", noTemps, false⟩
  else if rq.hasFileField = false then ⟨.json 400 "No file uploaded", noTemps, false⟩
  else if rq.filename = [] then ⟨.json 400 "No file selected", noTemps, false⟩
  else
    match (export_xslt rq.rootTag xenv).1 with
    | .error e => ⟨.json 500 e.msg, noTemps, false⟩
    | .ok _ =>
      match renderPhase fenv with
      | (.ok pdf, temp, inv) =>
          ⟨.pdfAttachment pdf (export_filename rq.filename), temp, inv⟩
      | (.error e, temp, inv) => ⟨.json 500 e.msg, temp, inv⟩

/-- The module-level capability values computed once at import:
FOP_JAR, JAVA_CMD, HAS_FOP. -/
structure Capabilities where
  fopJar : Option String
  javaCmd : Option String
  hasFop : Bool
deriving DecidableEq

/-- Startup computation: FOP_JAR is find_fop(), JAVA_CMD is
find_java(), and HAS_FOP holds when both were found. -/
def startupCapabilities (jar java : Option String) : Capabilities :=
  ⟨jar, java, jar.isSome && java.isSome⟩

/-- The three HTTP routes of the app. -/
inductive Route
  | index
  | transform
  | exportPdf
deriving DecidableEq

/-- One incoming request together with the oracles its handling will
consult. -/
structure Request where
  route : Route
  http : HttpReq
  xenv : XsltEnv
  fenv : FopEnv
deriving DecidableEq

/-- A response from any of the three routes. -/
inductive ServerResp
  | page (hasFop : Bool)
  | transformed (r : TransformResp)
  | exported (r : ExportResp)
deriving DecidableEq

/-- Dispatch one request; the result carries the capability values as
they stand afterwards (no handler assigns to them). -/
def handle_request (caps : Capabilities) (rq : Request) :
    ServerResp × Capabilities :=
  match rq.route with
  | .index => (.page caps.hasFop, caps)
  | .transform => (.transformed (transform_route rq.http rq.xenv), caps)
  | .exportPdf =>
      (.exported (export_pdf_route caps.hasFop rq.http rq.xenv rq.fenv).resp, caps)

/-- Process lifetime: handle a list of requests in order, recording the
response and the capability values observed by each request. -/
def server_trace (caps : Capabilities) :
    List Request → List (ServerResp × Capabilities)
  | [] => []
  | rq :: rest =>
      let out := handle_request caps rq
      out :: server_trace out.2 rest

/-- C2: once all three temp files were created and the subprocess has
run and exited, the handler returns the PDF bytes iff the output file
exists with size greater than zero - independently of the exit code -
and otherwise raises the render failure. -/
theorem render_success_iff_output_file (env : FopEnv)
    (h1 : env.createFo = true) (h2 : env.createPdf = true)
    (h3 : env.createXconf = true) (h4 : env.runRaises = none) :
    ((renderPhase env).1 = .ok env.pdfBytes
        ↔ (env.pdfExists = true ∧ 0 < env.pdfSize))
    ∧ (¬(env.pdfExists = true ∧ 0 < env.pdfSize) →
        (renderPhase env).1
          = .error (.runtimeError ("FOP error: " ++ fopErrorDetail env)))
    ∧ ∀ c : Int, renderPhase { env with exitCode := c } = renderPhase env := by
  refine ⟨?_, ?_, ?_⟩
  · by_cases hp : env.pdfExists = true ∧ 0 < env.pdfSize
    · simp [renderPhase, h1, h2, h3, h4, hp]
    · simp [renderPhase, h1, h2, h3, h4, hp]
  · intro hp
    simp [renderPhase, h1, h2, h3, h4, hp]
  · intro c
    cases env
    rfl

/-- Witness for C2 at a concrete environment with a non-empty output
file. -/
theorem render_success_iff_output_file_witness :
    (renderPhase ⟨true, true, true, none, 0, "", "", true, 5, "PDF"⟩).1
      = .ok "PDF" :=
  ((render_success_iff_output_file
      ⟨true, true, true, none, 0, "", "", true, 5, "PDF"⟩
      rfl rfl rfl rfl).1).mpr (by decide)

/-- C3 counterexample: an export request in which the .fo temp file is
created and the creation of the .pdf temp file then raises ends with an
error response while the .fo file is left behind, so not every exit
path after the FO string is produced deletes all three files. -/
theorem export_cleanup_cex :
    (export_pdf_route true
        ⟨true, "a.xml".toList, some (clarkTag (some NS_ubl_invoice) "Invoice".toList)⟩
        ⟨true, true, .ok (), .ok (some "xr"), .ok (), .ok (some "fo")⟩
        ⟨true, false, true, none, 0, "", "", false, 0, ""⟩).temp
      = ⟨true, false, false⟩ := by
  rfl

/-- C3 amended: on every exit path of an export request on which all
three temporary file creations succeed - success, render failure, or
any exception inside the render try block - all three temporary files
are deleted; only a failing later temp-file creation (outside the
try/finally) can leave an earlier file behind. -/
theorem export_cleanup_after_creation (hasFop : Bool) (rq : HttpReq)
    (xenv : XsltEnv) (fenv : FopEnv)
    (h1 : fenv.createFo = true) (h2 : fenv.createPdf = true)
    (h3 : fenv.createXconf = true) :
    (export_pdf_route hasFop rq xenv fenv).temp = noTemps := by
  have hr : (renderPhase fenv).2.1 = noTemps := by
    cases hrr : fenv.runRaises with
    | some m => simp [renderPhase, h1, h2, h3, hrr, noTemps]
    | none =>
      by_cases hp : fenv.pdfExists = true ∧ 0 < fenv.pdfSize
      · simp [renderPhase, h1, h2, h3, hrr, hp, noTemps]
      · simp [renderPhase, h1, h2, h3, hrr, hp, noTemps]
  unfold export_pdf_route
  rcases hrp : renderPhase fenv with ⟨res, temp, inv⟩
  have htemp : temp = noTemps := by rw [hrp] at hr; exact hr
  subst htemp
  by_cases hf : hasFop = false
  · simp [hf]
  · by_cases hff : rq.hasFileField = false
    · simp [hf, hff]
    · by_cases hfn : rq.filename = []
      · simp [hf, hff, hfn]
      · cases hx : (export_xslt rq.rootTag xenv).1 with
        | error e => simp [hf, hff, hfn, hx]
        | ok fo =>
          simp only [hf, hff, hfn, hx, if_neg, ite_false]
          cases res <;> simp [hf, hff, hfn, hx, hrp]

/-- Witness for C3 at a concrete request whose render phase fails with
an empty output file. -/
theorem export_cleanup_after_creation_witness :
    (export_pdf_route true
        ⟨true, "a.xml".toList, some (clarkTag (some NS_ubl_invoice) "Invoice".toList)⟩
        ⟨true, true, .ok (), .ok (some "xr"), .ok (), .ok (some "fo")⟩
        ⟨true, true, true, none, 0, "boom", "", false, 0, ""⟩).temp = noTemps :=
  export_cleanup_after_creation true
    ⟨true, "a.xml".toList, some (clarkTag (some NS_ubl_invoice) "Invoice".toList)⟩
    ⟨true, true, .ok (), .ok (some "xr"), .ok (), .ok (some "fo")⟩
    ⟨true, true, true, none, 0, "boom", "", false, 0, ""⟩ rfl rfl rfl

/-- C4: when startup found no renderer archive or no runtime (HAS_FOP
false), every export request answers the unavailable error and the
renderer subprocess is never invoked. -/
theorem export_unavailable_when_no_fop (jar java : Option String)
    (rq : HttpReq) (xenv : XsltEnv) (fenv : FopEnv)
    (h : (startupCapabilities jar java).hasFop = false) :
    (export_pdf_route (startupCapabilities jar java).hasFop rq xenv fenv).resp
        = .json 500 "Apache FOP not installed"
    ∧ (export_pdf_route (startupCapabilities jar java).hasFop rq xenv
        fenv).subprocInvoked = false := by
  rw [h]
  exact ⟨rfl, rfl⟩

/-- Witness for C4 with neither the renderer archive nor a runtime
found. -/
theorem export_unavailable_when_no_fop_witness :
    (export_pdf_route (startupCapabilities none none).hasFop
        ⟨true, "a.xml".toList, none⟩
        ⟨true, true, .ok (), .ok none, .ok (), .ok none⟩
        ⟨true, true, true, none, 0, "", "", false, 0, ""⟩).resp
      = .json 500 "Apache FOP not installed" :=
  (export_unavailable_when_no_fop none none
    ⟨true, "a.xml".toList, none⟩
    ⟨true, true, .ok (), .ok none, .ok (), .ok none⟩
    ⟨true, true, true, none, 0, "", "", false, 0, ""⟩ rfl).1

/-- C5 counterexample: an upload with an unqualified root is
unrecognized, and both handlers answer with status 500, which is not a
4xx-class status. -/
theorem unrecognized_status_cex :
    (transform_route ⟨true, "a.xml".toList, some "Invoice".toList⟩
        ⟨true, true, .ok (), .ok none, .ok (), .ok none⟩).status = 500
    ∧ ¬(400 ≤ (transform_route ⟨true, "a.xml".toList, some "Invoice".toList⟩
          ⟨true, true, .ok (), .ok none, .ok (), .ok none⟩).status
        ∧ (transform_route ⟨true, "a.xml".toList, some "Invoice".toList⟩
            ⟨true, true, .ok (), .ok none, .ok (), .ok none⟩).status < 500)
    ∧ (export_pdf_route true ⟨true, "a.xml".toList, some "Invoice".toList⟩
        ⟨true, true, .ok (), .ok none, .ok (), .ok none⟩
        ⟨true, true, true, none, 0, "", "", false, 0, ""⟩).resp.status = 500 := by
  decide

/-- C5 amended: with a file present and a non-empty filename, an upload
classified as unrecognized yields a 500 response carrying the
descriptive unknown-format message, on both routes. -/
theorem unrecognized_gives_500 (rq : HttpReq) (xenv : XsltEnv) (fenv : FopEnv)
    (h1 : rq.hasFileField = true) (h2 : ¬ rq.filename = [])
    (hd : detect_document_type rq.rootTag = none) :
    transform_route rq xenv
        = .err 500
          "Unknown XML format. Supported: UBL Invoice, UBL CreditNote, CII/UNCEFACT"
    ∧ (export_pdf_route true rq xenv fenv).resp
        = .json 500 "Unknown XML format" := by
  constructor
  · simp [transform_route, h1, h2, transform_xml, hd, PyErr.msg]
  · simp [export_pdf_route, h1, h2, export_xslt, hd, PyErr.msg]

/-- Witness for C5 at a concrete unrecognized upload. -/
theorem unrecognized_gives_500_witness :
    transform_route ⟨true, "a.xml".toList, some "Invoice".toList⟩
        ⟨true, true, .ok (), .ok none, .ok (), .ok none⟩
      = .err 500
        "Unknown XML format. Supported: UBL Invoice, UBL CreditNote, CII/UNCEFACT" :=
  (unrecognized_gives_500 ⟨true, "a.xml".toList, some "Invoice".toList⟩
    ⟨true, true, .ok (), .ok none, .ok (), .ok none⟩
    ⟨true, true, true, none, 0, "", "", false, 0, ""⟩
    rfl (by decide) rfl).1

/-- C6 counterexample: in the export pipeline an empty second-stage
result raises "XSL-FO transformation failed", which differs from the
view pipeline's second-stage message. -/
theorem export_stage2_message_cex :
    (export_xslt (some (clarkTag (some NS_cii) "CrossIndustryInvoice".toList))
        ⟨true, true, .ok (), .ok (some "xr"), .ok (), .ok (some "")⟩).1
      = .error (.runtimeError "XSL-FO transformation failed")
    ∧ "XSL-FO transformation failed" ≠ "Second XSLT transformation failed" := by
  exact ⟨rfl, by decide⟩

/-- C6 amended: an empty or absent stage result fails with
"First XSLT transformation failed" and "Second XSLT transformation
failed" in the view pipeline, and with "First XSLT transformation
failed" and "XSL-FO transformation failed" in the export pipeline. -/
theorem stage_failure_messages (p : Option (List Char)) (t : DocType)
    (e1 e2 e3 e4 : XsltEnv) (r1 r2a r2b r3 r4a r4b : Option String)
    (hp : detect_document_type p = some t)
    (h1a : e1.firstExists = true) (h1b : e1.secondExists = true)
    (h1c : e1.compile1 = .ok ()) (h1d : e1.run1 = .ok r1)
    (h1e : pyFalsy r1 = true)
    (h2a : e2.firstExists = true) (h2b : e2.secondExists = true)
    (h2c : e2.compile1 = .ok ()) (h2d : e2.run1 = .ok r2a)
    (h2e : pyFalsy r2a = false) (h2f : e2.compile2 = .ok ())
    (h2g : e2.run2 = .ok r2b) (h2h : pyFalsy r2b = true)
    (h3a : e3.compile1 = .ok ()) (h3b : e3.run1 = .ok r3)
    (h3c : pyFalsy r3 = true)
    (h4a : e4.compile1 = .ok ()) (h4b : e4.run1 = .ok r4a)
    (h4c : pyFalsy r4a = false) (h4d : e4.compile2 = .ok ())
    (h4e : e4.run2 = .ok r4b) (h4f : pyFalsy r4b = true) :
    (transform_xml p e1).1
        = .error (.runtimeError "First XSLT transformation failed")
    ∧ (transform_xml p e2).1
        = .error (.runtimeError "Second XSLT transformation failed")
    ∧ (export_xslt p e3).1
        = .error (.runtimeError "First XSLT transformation failed")
    ∧ (export_xslt p e4).1
        = .error (.runtimeError "XSL-FO transformation failed") := by
  refine ⟨?_, ?_, ?_, ?_⟩
  · simp [transform_xml, hp, h1a, h1b, h1c, h1d, h1e]
  · simp [transform_xml, hp, h2a, h2b, h2c, h2d, h2e, h2f, h2g, h2h]
  · simp [export_xslt, hp, h3a, h3b, h3c]
  · simp [export_xslt, hp, h4a, h4b, h4c, h4d, h4e, h4f]

/-- Witness for C6 at a concrete UBL Invoice upload and four concrete
engine environments. -/
theorem stage_failure_messages_witness :
    (transform_xml (some (clarkTag (some NS_ubl_invoice) "Invoice".toList))
        ⟨true, true, .ok (), .ok (some ""), .ok (), .ok none⟩).1
        = .error (.runtimeError "First XSLT transformation failed")
    ∧ (transform_xml (some (clarkTag (some NS_ubl_invoice) "Invoice".toList))
        ⟨true, true, .ok (), .ok (some "xr"), .ok (), .ok none⟩).1
        = .error (.runtimeError "Second XSLT transformation failed")
    ∧ (export_xslt (some (clarkTag (some NS_ubl_invoice) "Invoice".toList))
        ⟨true, true, .ok (), .ok (some ""), .ok (), .ok none⟩).1
        = .error (.runtimeError "First XSLT transformation failed")
    ∧ (export_xslt (some (clarkTag (some NS_ubl_invoice) "Invoice".toList))
        ⟨true, true, .ok (), .ok (some "xr"), .ok (), .ok (some "")⟩).1
        = .error (.runtimeError "XSL-FO transformation failed") :=
  stage_failure_messages
    (some (clarkTag (some NS_ubl_invoice) "Invoice".toList)) .ubl_invoice
    ⟨true, true, .ok (), .ok (some ""), .ok (), .ok none⟩
    ⟨true, true, .ok (), .ok (some "xr"), .ok (), .ok none⟩
    ⟨true, true, .ok (), .ok (some ""), .ok (), .ok none⟩
    ⟨true, true, .ok (), .ok (some "xr"), .ok (), .ok (some "")⟩
    (some "") (some "xr") none (some "") (some "xr") (some "")
    rfl rfl rfl rfl rfl rfl rfl rfl rfl rfl rfl rfl rfl rfl rfl
    rfl rfl rfl rfl rfl rfl rfl rfl

/-- Whether a pipeline outcome is a FileNotFoundError. -/
def isFileNotFound : Except PyErr String → Bool
  | .error (.fileNotFound _) => true
  | _ => false

lemma export_xslt_compile1_reached (p : Option (List Char)) (t : DocType)
    (e : XsltEnv) (hp : detect_document_type p = some t) :
    (export_xslt p e).2.compile1 = true := by
  unfold export_xslt
  rw [hp]
  cases e.compile1 with
  | error m => rfl
  | ok u =>
    cases e.run1 with
    | error m => rfl
    | ok r =>
      by_cases hr : pyFalsy r = true
      · simp [hr]
      · simp only [hr, if_neg, ite_false, Bool.false_eq_true]
        cases e.compile2 with
        | error m => rfl
        | ok v =>
          cases e.run2 with
          | error m => rfl
          | ok r2 =>
            by_cases hr2 : pyFalsy r2 = true
            · simp [hr, hr2]
            · simp [hr, hr2]

/-- C7 counterexample: the export pipeline performs no stylesheet
existence check - with the first stylesheet absent it still reaches the
first compile step, and the failure surfaces as an engine error, not as
a file-not-found condition raised before any transformation work. -/
theorem export_no_stylesheet_check_cex :
    (export_xslt (some (clarkTag (some NS_ubl_invoice) "Invoice".toList))
        ⟨false, false, .error "Error compiling stylesheet", .ok none, .ok (),
          .ok none⟩).2.compile1 = true
    ∧ isFileNotFound
        (export_xslt (some (clarkTag (some NS_ubl_invoice) "Invoice".toList))
          ⟨false, false, .error "Error compiling stylesheet", .ok none, .ok (),
            .ok none⟩).1 = false := by
  exact ⟨rfl, rfl⟩

/-- C7 amended: only the view pipeline checks the two stylesheet files
up front, failing with a file-not-found condition before any engine
step when either is absent; the export pipeline has no such check and
always reaches the first compile once the document type is known. -/
theorem stylesheet_check_view_only (p : Option (List Char)) (t : DocType)
    (e1 e2 e3 : XsltEnv)
    (hp : detect_document_type p = some t)
    (h1 : e1.firstExists = false)
    (h2a : e2.firstExists = true) (h2b : e2.secondExists = false) :
    ((transform_xml p e1).1
        = .error (.fileNotFound ("XSLT not found: " ++ xsl_mapping t))
      ∧ (transform_xml p e1).2 = noSteps)
    ∧ ((transform_xml p e2).1
        = .error (.fileNotFound "XSLT not found: xrechnung-html.xsl")
      ∧ (transform_xml p e2).2 = noSteps)
    ∧ (export_xslt p e3).2.compile1 = true := by
  refine ⟨⟨?_, ?_⟩, ⟨?_, ?_⟩, export_xslt_compile1_reached p t e3 hp⟩
  · simp [transform_xml, hp, h1]
  · simp [transform_xml, hp, h1]
  · simp [transform_xml, hp, h2a, h2b]
  · simp [transform_xml, hp, h2a, h2b]

/-- Witness for C7 at a concrete CII upload with missing stylesheet
files. -/
theorem stylesheet_check_view_only_witness :
    ((transform_xml (some (clarkTag (some NS_cii) "CrossIndustryInvoice".toList))
        ⟨false, true, .ok (), .ok none, .ok (), .ok none⟩).1
        = .error (.fileNotFound ("XSLT not found: " ++ xsl_mapping .cii))
      ∧ (transform_xml (some (clarkTag (some NS_cii) "CrossIndustryInvoice".toList))
          ⟨false, true, .ok (), .ok none, .ok (), .ok none⟩).2 = noSteps)
    ∧ ((transform_xml (some (clarkTag (some NS_cii) "CrossIndustryInvoice".toList))
        ⟨true, false, .ok (), .ok none, .ok (), .ok none⟩).1
        = .error (.fileNotFound "XSLT not found: xrechnung-html.xsl")
      ∧ (transform_xml (some (clarkTag (some NS_cii) "CrossIndustryInvoice".toList))
          ⟨true, false, .ok (), .ok none, .ok (), .ok none⟩).2 = noSteps)
    ∧ (export_xslt (some (clarkTag (some NS_cii) "CrossIndustryInvoice".toList))
        ⟨false, false, .error "Error compiling stylesheet XX", .ok none, .ok (),
          .ok none⟩).2.compile1 = true :=
  stylesheet_check_view_only
    (some (clarkTag (some NS_cii) "CrossIndustryInvoice".toList)) .cii
    ⟨false, true, .ok (), .ok none, .ok (), .ok none⟩
    ⟨true, false, .ok (), .ok none, .ok (), .ok none⟩
    ⟨false, false, .error "Error compiling stylesheet XX", .ok none, .ok (),
      .ok none⟩
    rfl rfl rfl rfl

/-- C9 counterexample: with both captured streams non-empty the
surfaced detail is the standard-error text alone, not the combined
standard-error and standard-output text. -/
theorem fop_error_detail_cex :
    (renderPhase ⟨true, true, true, none, 0, "err", "out", false, 0, ""⟩).1
      = .error (.runtimeError "FOP error: err")
    ∧ "FOP error: err"
        ≠ "FOP error: "
            ++ spec_combined_output
                ⟨true, true, true, none, 0, "err", "out", false, 0, ""⟩ := by
  exact ⟨rfl, by decide⟩

/-- C9 amended: on render failure the surfaced detail, prefixed with
"FOP error: ", is the standard-error text when non-empty, otherwise the
standard-output text when non-empty, otherwise the fixed fallback
"FOP execution failed". -/
theorem fop_error_detail_priority (env : FopEnv)
    (h1 : env.createFo = true) (h2 : env.createPdf = true)
    (h3 : env.createXconf = true) (h4 : env.runRaises = none)
    (h5 : ¬(env.pdfExists = true ∧ 0 < env.pdfSize)) :
    (renderPhase env).1
        = .error (.runtimeError ("FOP error: " ++ fopErrorDetail env))
    ∧ (env.stderrTxt ≠ "" → fopErrorDetail env = env.stderrTxt)
    ∧ (env.stderrTxt = "" → env.stdoutTxt ≠ "" →
        fopErrorDetail env = env.stdoutTxt)
    ∧ (env.stderrTxt = "" → env.stdoutTxt = "" →
        fopErrorDetail env = "FOP execution failed") := by
  refine ⟨?_, ?_, ?_, ?_⟩
  · simp [renderPhase, h1, h2, h3, h4, h5]
  · intro hs; simp [fopErrorDetail, hs]
  · intro hs ho; simp [fopErrorDetail, hs, ho]
  · intro hs ho; simp [fopErrorDetail, hs, ho]

/-- Witness for C9 at a concrete failing render with stderr text. -/
theorem fop_error_detail_priority_witness :
    (renderPhase ⟨true, true, true, none, 3, "boom", "", false, 0, ""⟩).1
      = .error (.runtimeError "FOP error: boom") :=
  (fop_error_detail_priority ⟨true, true, true, none, 3, "boom", "", false, 0, ""⟩
    rfl rfl rfl rfl (by decide)).1

lemma server_trace_caps (caps : Capabilities) (reqs : List Request) :
    ∀ pr ∈ server_trace caps reqs, pr.2 = caps := by
  induction reqs generalizing caps with
  | nil =>
    intro pr h
    simp [server_trace] at h
  | cons rq rest ih =>
    intro pr h
    have hh : (handle_request caps rq).2 = caps := by
      cases hr : rq.route <;> simp [handle_request, hr]
    simp only [server_trace] at h
    rcases List.mem_cons.mp h with he | hm
    · rw [he, hh]
    · rw [hh] at hm
      exact ih caps pr hm

/-- C10: FOP_JAR, JAVA_CMD and HAS_FOP are computed once at startup and
no request handler reassigns them, so every request of a process
lifetime observes the same capability values. -/
theorem capabilities_constant (jar java : Option String) (reqs : List Request)
    (pr : ServerResp × Capabilities)
    (hmem : pr ∈ server_trace (startupCapabilities jar java) reqs) :
    pr.2 = startupCapabilities jar java :=
  server_trace_caps (startupCapabilities jar java) reqs pr hmem

/-- Witness for C10 on a one-request lifetime with both capabilities
found. -/
theorem capabilities_constant_witness :
    (ServerResp.page true,
        startupCapabilities (some "fop.jar") (some "java")).2
      = startupCapabilities (some "fop.jar") (some "java") :=
  capabilities_constant (some "fop.jar") (some "java")
    [⟨Route.index, ⟨false, [], none⟩,
      ⟨true, true, .ok (), .ok none, .ok (), .ok none⟩,
      ⟨true, true, true, none, 0, "", "", false, 0, ""⟩⟩]
    (ServerResp.page true, startupCapabilities (some "fop.jar") (some "java"))
    (by decide)
